import Mathlib

/-!
Verification development for the lift repository (src/lift/lift.py and
src/lift/device_list.py): a shallow embedding of the probe dispatcher, the
TLS-certificate label ladder of testips, the HTTP heuristic rule ladder of
getheaders, and the three UDP reflection checks, together with theorems
settling the specification claims.

Conventions of the embedding:
- Python None is Option.none; a value that may be None is an Option.
- Python str(x) on an Option is pyStrOpt (None prints as "None").
- Python substring test needle in hay on strings is pyIn.
- Python x in hay where hay may be None raises TypeError; such tests
  return Except String Bool, the error being the exception message.
- CPython 2 interns identifier-like string literals and caches small ints,
  so the device is "hikvision" and dport is 80 comparisons in the source
  behave as equality on the values that actually flow there; they are
  embedded as equality.
- print with comma-separated arguments joins the pieces with single
  spaces; each emitted line is built with String.intercalate.
-/

/-- A single apostrophe character, used to build Python repr text. -/
def pyQuote : String := (Char.ofNat 39).toString

/-- Python str.rstrip with the character set backslash-r, backslash-n and
the closing parenthesis, as applied to dest_ip throughout lift.py. -/
def pyRstrip (s : String) : String :=
  ⟨(s.data.reverse.dropWhile fun c =>
      c == Char.ofNat 13 || c == Char.ofNat 10 || c == Char.ofNat 41).reverse⟩

/-- Infix test on character lists, by structural recursion. -/
def listInfixOf (n : List Char) : List Char → Bool
  | [] => n.isEmpty
  | c :: t => n.isPrefixOf (c :: t) || listInfixOf n t

/-- Python needle in hay on two strings. -/
def pyIn (needle hay : String) : Bool := listInfixOf needle.data hay.data

/-- Python truthiness of a string: nonempty strings are truthy. -/
def pyTruthyS (s : String) : Bool := s != ""

/-- Python a or b on two strings: the value is a when a is truthy. -/
def pyOrS (a b : String) : String := if pyTruthyS a then a else b

/-- Python str(x) for x an Option String: None prints as "None". -/
def pyStrOpt : Option String → String
  | none => "None"
  | some s => s

/-- Python repr of a list of unicode strings, as produced by str on a
BeautifulSoup contents list: brackets around comma-separated u-quoted
elements. -/
def pyReprList (l : List String) : String :=
  "[" ++ String.intercalate ", " (l.map fun s => "u" ++ pyQuote ++ s ++ pyQuote) ++ "]"

/-- Python str(a) where a is a contents list or None. -/
def pyStrTitle : Option (List String) → String
  | none => "None"
  | some l => pyReprList l

/-- Message of the TypeError raised by needle in None. -/
def noneIterMsg : String :=
  "argument of type " ++ pyQuote ++ "NoneType" ++ pyQuote ++ " is not iterable"

/-- Message of the AttributeError raised by attribute access on None. -/
def noneAttrMsg (attr : String) : String :=
  pyQuote ++ "NoneType" ++ pyQuote ++ " object has no attribute " ++ pyQuote ++ attr ++ pyQuote

/-- Python needle in server where server may be None: raises TypeError on
None, otherwise a substring test. -/
def pyInServer (needle : String) : Option String → Except String Bool
  | none => .error noneIterMsg
  | some s => .ok (pyIn needle s)

/-- Python needle in a where a is a contents list or None: list membership
is element equality, not substring; raises TypeError on None. -/
def pyInList (x : String) : Option (List String) → Except String Bool
  | none => .error noneIterMsg
  | some l => .ok (l.contains x)

/-- Python a.pop() on a contents list that may be None: returns the last
element; raises AttributeError on None and IndexError on an empty list. -/
def pyPopL : Option (List String) → Except String String
  | none => .error (noneAttrMsg "pop")
  | some [] => .error "pop from empty list"
  | some (c :: t) => .ok ((c :: t).getLast (by simp))

/-- Python a.count(1) where a is a list of strings: the integer 1 equals
no unicode string in Python 2, so the count is always zero. -/
def pyCountOne (l : List String) : Nat := (l.filter fun _ => false).length

/-!
Signature store, from src/lift/device_list.py. The tables map the device
id key (the canonical certificate text form of spec section 4.2) to the
display name.
-/

/-- The exact-match table of device_list.py. -/
def exact_names : List (String × String) := [
  ("ami_megarac",   "AMI MegaRac Remote Management Default Cert (SSL)"),
  ("audiocodecs_8443", "AudioCodecs MP serices 443/8443 Default Cert (SSL)"),
  ("avigilon",     "Aviligon Gateway Default cert"),
  ("avocent_1",     "Avocent Default cert (unknown device) (SSL)"),
  ("broadcom_1",    "Broadcom Generic Modem (SSL)"),
  ("canon_iradv",   "Canon IR-ADV Login Page (SSL/8443)"),
  ("ecessa",        "Ecessa PowerLink Wan Optimizer (SSL)"),
  ("edgewater_1",   "EdgeWater Networks VOIP Solution (SSL)"),
  ("enco_player_1", "Enco Enplayer Default Cert (SSL)"),
  ("foscam_cam",    "Foscam IPcam Client Login (SSL)"),
  ("fujistu_celvin", "Fujitsu Celvin NAS (SSL)"),
  ("hikvision",     "Hikvision Default Cert"),
  ("huawei_hg658",  "Huawei Home Gateway HG658d (SSL)"),
  ("interpeak_device", "Something made by interpeak (SSL)"),
  ("lacie_1",       "LaCie CloudBox (SSL)"),
  ("lg_nas_1",      "LG NAS Device (SSL)"),
  ("lifesize_1",    "Lifesize Product (SSL)"),
  ("ligowave_1",    "LigoWave Default Cert (probably APC Propeller 5) (SSL)"),
  ("netgear_1",     "NetGear Default cert UTM  (SSL)"),
  ("nomadix_ag_1",  "Nomadix AG series Gateway (SSL)"),
  ("opengear_default_cert", "Opengear Management Console Default cert (SSL)"),
  ("ubiquiti",      "Ubiquiti AirMax or AirFiber Device (SSL)"),
  ("verifone_sapphire", "Verifone Sapphire Device (SSL)"),
  ("verizon_jungo", "Verizon Jungo OpenRG product (SSL/8443)"),
  ("zyxel_pk5001z", "Zyxel PK5001Z default cert (SSL)")]

/-- The substring-match table of device_list.py. -/
def partial_names : List (String × String) := [
  ("axentra_1",     "Seagate/Axentra NAS Default Cert 863B4AB (443/SSL)"),
  ("buffalo_1",     "Buffalo Default Cert (443/SSL)"),
  ("colubris",      "HPE MSM Series Device (SSL)"),
  ("digi_int_1",    "Digi Passport Default Cert (443/SSL)"),
  ("filemaker",     "Filemaker Secure Database Website (SSL)"),
  ("intelbras_wom500", "IntelBras Wom500 (admin/admin) (SSL)"),
  ("ironport_device", "Cisco IronPort Device Default SSL (443/SSL)"),
  ("meru_net_1",    "Meru Network Management Device  (443/SSL)"),
  ("netgear_2",     "Netgear Default Cert Home Router (8443/SSL)"),
  ("netvanta",      "ADTRAN NetVanta Total Access Device (SSL)"),
  ("prtg_network_monitor_1", "Paessler PTRG Monitoring Default Cert(443/SSL)"),
  ("qnap",         "QNAP NAS TS series detected (SSL)"),
  ("samsung",      "Unknown Samsung Device (SSL)"),
  ("supermicro_ipmi", "Supermicro IPMI Default Certs (SSL)"),
  ("UBNT",         "Ubiquiti AirMax or AirFiber Device (SSL)"),
  ("Vigor",        "DrayTek Vigor Device (SSL)")]

/-- Modelled from the spec: lookupByCert of section 4.1, exact-match only,
none if absent. The canonical certificate text of a signature is its id
key in exact_names; the canonicalisation itself (certs.getcertinfo, under
lib/, not under src/) is the identity on these keys. -/
def lookupByCert (c : String) : Option String :=
  (exact_names.find? fun p => p.1 == c).map fun p => p.2

/-!
TLS fingerprint prober: the label ladder of testips (lift.py lines
215 to 303). Every print there has the shape
str(dest_ip).rstrip + label, so the ladder is embedded as the list of
emitted label texts (each one beginning with a colon and a space exactly
as the source literal does). Python is on interned literals is embedded
as string equality.
-/

/-- The if/elif ladder of testips over a non-None device string, first
match wins; none when no branch matches. -/
def testipsLadder (d : String) : Option String :=
  if pyIn "UBNT" d then some ": Ubiquiti AirMax or AirFiber Device (SSL)"
  else if pyIn "samsung" d then some ": Unknown Samsung Device (SSL)"
  else if pyIn "qnap" d then some ": QNAP NAS TS series detected (SSL)"
  else if d == "hikvision" then some ": Hikvision Default Cert"
  else if d == "avigilon" then some ": Aviligon Gateway Default cert"
  else if d == "netgear_1" then some ": NetGear Default cert UTM  (SSL)"
  else if d == "verifone_sapphire" then some ": Verifone Sapphire Device (SSL)"
  else if pyIn "Vigor" d then some ": DrayTek Vigor Device (SSL)"
  else if d == "lifesize_1" then some ": Lifesize Product (SSL)"
  else if pyIn "filemaker" d then some ": Filemaker Secure Database Website (SSL)"
  else if d == "verizon_jungo" then some ": Verizon Jungo OpenRG product (SSL/8443)"
  else if d == "canon_iradv" then some ": Canon IR-ADV Login Page (SSL/8443)"
  else if pyIn "colubris" d then some ": HPE MSM Series Device (SSL)"
  else if d == "ecessa" then some ": Ecessa PowerLink Wan Optimizer (SSL)"
  else if d == "nomadix_ag_1" then some ": Nomadix AG series Gateway (SSL)"
  else if pyIn "netvanta" d then some ": ADTRAN NetVanta Total Access Device (SSL)"
  else if "valuepoint_gwc_1" == d then some ": ValuePoint Networks Gateway Controller Series (SSL)"
  else if d == "broadcom_1" then some ": Broadcom Generic Modem (SSL)"
  else if d == "lg_nas_1" then some ": LG NAS Device (SSL)"
  else if d == "edgewater_1" then some ": EdgeWater Networks VOIP Solution (SSL)"
  else if d == "foscam_cam" then some ": Foscam IPcam Client Login (SSL)"
  else if d == "lacie_1" then some ": LaCie CloudBox (SSL)"
  else if d == "huawei_hg658" then some ": Huawei Home Gateway HG658d (SSL)"
  else if d == "interpeak_device" then some ": Something made by interpeak (SSL)"
  else if d == "fujistu_celvin" then some ": Fujitsu Celvin NAS (SSL)"
  else if d == "opengear_default_cert" then some ": Opengear Management Console Default cert (SSL)"
  else if d == "zyxel_pk5001z" then some ": Zyxel PK5001Z default cert (SSL)"
  else if d == "audiocodecs_8443" then some ": AudioCodecs MP serices 443/8443 Default Cert (SSL)"
  else if pyIn "supermicro_ipmi" d then some ": Supermicro IPMI Default Certs (SSL)"
  else if d == "enco_player_1" then some ": Enco Enplayer Default Cert (SSL)"
  else if d == "ami_megarac" then some ": AMI MegaRac Remote Management Default Cert (SSL)"
  else if d == "avocent_1" then some ": Avocent Default cert (unknown device) (SSL)"
  else if d == "ligowave_1" then some ": LigoWave Default Cert (probably APC Propeller 5) (SSL)"
  else if pyIn "intelbras_wom500" d then some ": IntelBras Wom500 (admin/admin) (SSL)"
  else if pyIn "netgear_2" d then some ": Netgear Default Cert Home Router (8443/SSL)"
  else if pyIn "buffalo_1" d then some ": Buffalo Default Cert (443/SSL)"
  else if pyIn "digi_int_1" d then some ": Digi Passport Default Cert (443/SSL)"
  else if pyIn "prtg_network_monitor_1" d then some ": Paessler PTRG Monitoring Default Cert(443/SSL)"
  else if pyIn "axentra_1" d then some ": Seagate/Axentra NAS Default Cert 863B4AB (443/SSL)"
  else if pyIn "ironport_device" d then some ": Cisco IronPort Device Default SSL (443/SSL)"
  else if pyIn "meru_net_1" d then some ": Meru Network Management Device  (443/SSL)"
  else if pyIn "bticino_1" d then some ": BTcinino My Home Device w/ Default Cert  (443/SSL)"
  else none

/-- Labels printed by testips for a given device lookup result: the
standalone ubiquiti if statement, then the ladder. None means the
certificate resolved to no device id and testips falls through to
getheaders_ssl instead of printing a label. -/
def testipsLabel : Option String → List String
  | none => []
  | some d =>
      (if d == "ubiquiti" then [": Ubiquiti AirMax or AirFiber Device (SSL)"] else [])
      ++ (testipsLadder d).toList

/-!
The exception handler of testips (lift.py lines 313 to 323) and the HTTP
fallback it triggers. A Python 2 exception instance supports the in
operator through item access over its args tuple, so 111 in e tests
membership of the integer 111 in the args.
-/

/-- One element of the args tuple of a Python exception. -/
inductive PyArg
  | int (n : Int)
  | str (s : String)
deriving DecidableEq

/-- Python x in e over the args of an exception instance. -/
def pyInExc (x : PyArg) (args : List PyArg) : Bool := args.contains x

/-- The second fallback guard of the testips handler: the parenthesised
Python expression "timed out" or (sslv3 in e), whose value is the truthy
constant string whenever the left operand is truthy. -/
def testipsGuard2 (args : List PyArg) : Bool :=
  if pyTruthyS "timed out" then true else pyInExc (.str "sslv3") args

/-- The port passed to getheaders by the testips exception handler, none
when no fallback is made: first guard is errno 111 membership, second is
testipsGuard2, both further guarded by ssl_only == 0; either branch calls
getheaders with the unchanged dport. -/
def testipsFallbackCall (args : List PyArg) (ssl_only : Nat) (dport : Nat) : Option Nat :=
  if pyInExc (.int 111) args && ssl_only == 0 then some dport
  else if testipsGuard2 args && ssl_only == 0 then some dport
  else none

/-- Port rewrite at the top of getheaders (lift.py lines 376 to 377):
443 becomes 80, every other port is kept. -/
def getheadersPort (dport : Nat) : Nat := if dport == 443 then 80 else dport

/-- Effective HTTP port of the probe that follows a TLS failure: the
fallback call, normalised by the getheaders port rewrite. -/
def httpPortAfterTlsFailure (args : List PyArg) (ssl_only : Nat) (dport : Nat) : Option Nat :=
  (testipsFallbackCall args ssl_only dport).map getheadersPort

/-!
Probe dispatcher: the branch structure of main for a single-IP target
(lift.py lines 57 to 63, 162 to 173 and 175 to 182) and for a subnet
target (lines 85 to 99), as a pure function of port, recurse and recon.
-/

/-- The probes lift can run for one target. -/
inductive Probe
  | httpFingerprint
  | tlsFingerprint
  | dnsReflection
  | ssdpReflection
  | ntpReflection
deriving DecidableEq

/-- Ordered probe list that main invokes for a single-IP target: the
fingerprint branch requires neither recurse nor recon, the recursion
branch selects by port with all three probes as default, and the recon
block afterwards adds the fingerprint probe and all three reflection
probes. -/
def dispatchProbes (port : Nat) (recurse recon : Bool) : List Probe :=
  (if !recurse && !recon then
    (if port == 80 then [.httpFingerprint] else [.tlsFingerprint])
  else if recurse then
    (if port == 53 then [.dnsReflection]
    else if port == 1900 then [.ssdpReflection]
    else if port == 123 then [.ntpReflection]
    else [.dnsReflection, .ssdpReflection, .ntpReflection])
  else [])
  ++ (if recon then [.tlsFingerprint, .dnsReflection, .ssdpReflection, .ntpReflection] else [])

/-- Ordered probe list of the per-address body of the subnet loop: port 80
is checked before the recursion flag. -/
def dispatchProbesSubnet (port : Nat) (recurse : Bool) : List Probe :=
  if port == 80 then [.httpFingerprint]
  else if recurse then
    (if port == 53 then [.dnsReflection]
    else if port == 1900 then [.ssdpReflection]
    else if port == 123 then [.ntpReflection]
    else [.dnsReflection, .ssdpReflection, .ntpReflection])
  else [.tlsFingerprint]

/-!
DNS reflection check (lift.py lines 524 to 546). The while loop tests
time.time() against start + 3 once and its body breaks on both branches,
so at most one query is ever sent; the loop is embedded unrolled, with
the clock sample at the test and the duration of the query as explicit
inputs. A query failure raises and is caught by the bare except.
-/

/-- Outcome of the single resolver query. -/
inductive DnsOutcome
  | answered (nonempty : Bool)
  | failed
deriving DecidableEq

/-- Timing and outcome environment of one DNS reflection check: the
elapsed time (seconds since start) sampled by the while test, the time
the query itself takes, and its outcome. -/
structure DnsEnv where
  elapsedAtTest : Nat
  queryDur : Nat
  outcome : DnsOutcome

/-- Lines printed, number of queries sent, and total elapsed time of
recurse_DNS_check. -/
def recurse_DNS_check (ip : String) (vbose : Bool) (env : DnsEnv) :
    List String × Nat × Nat :=
  let pre := if vbose then [String.intercalate " " ["Trying: ", ip]] else []
  if env.elapsedAtTest < 3 then
    match env.outcome with
    | .answered true =>
        (pre ++ [String.intercalate " " [ip, "is vulnerable to DNS AMP"]],
          1, env.elapsedAtTest + env.queryDur)
    | .answered false =>
        (pre ++ [String.intercalate " " [ip, "is a nope"]],
          1, env.elapsedAtTest + env.queryDur)
    | .failed =>
        (pre ++ [String.intercalate " " [ip, "is not vulnerable to DNS AMP"]],
          1, env.elapsedAtTest + env.queryDur)
  else (pre ++ [String.intercalate " " [ip, "is a nope"]], 0, env.elapsedAtTest)

/-!
SSDP reflection check (lift.py lines 549 to 566): an if/elif chain over
the result of ssdp_info.get_ssdp_information.
-/

/-- Which print statement of the recurse_ssdp_check chain runs. -/
inductive SsdpBranch
  | notReflector
  | reflector
  | verboseDetail
  | fallthrough
deriving DecidableEq

/-- Branch selection of recurse_ssdp_check: a is None, elif a is not
None, elif vbose is not None and a is not None. -/
def ssdpBranch (a : Option String) (vbose : Option String) : SsdpBranch :=
  if a = none then .notReflector
  else if a ≠ none then .reflector
  else if vbose ≠ none ∧ a ≠ none then .verboseDetail
  else .fallthrough

/-- Lines printed by recurse_ssdp_check for a given exchange result. -/
def recurse_ssdp_check (ip : String) (a : Option String) (vbose : Option String) :
    List String :=
  match ssdpBranch a vbose with
  | .notReflector => [String.intercalate " " [ip, "is not an SSDP reflector"]]
  | .reflector => [String.intercalate " " [ip, "is an SSDP reflector"]]
  | .verboseDetail =>
      [String.intercalate " " [ip, "is an SSDP reflector with result", pyStrOpt a]]
  | .fallthrough => []

/-!
NTP monlist check (lift.py lines 569 to 583) over the result of the
external monlist_scan: None, an integer, or a raised exception.
-/

/-- Result of NTPscan().monlist_scan: a returned value or an exception. -/
inductive NtpOutcome
  | ret (a : Option Int)
  | exc (msg : String)
deriving DecidableEq

/-- Lines printed by ntp_monlist_check: a is None prints the negative
verdict, a == 1 prints the positive verdict, an exception is caught and
prints a diagnostic only in verbose mode, and any other value prints
nothing. -/
def ntp_monlist_check (ip : String) (o : NtpOutcome) (vbose : Option String) :
    List String :=
  match o with
  | .ret none => [String.intercalate " " [ip, "is not vulnerable to NTP monlist"]]
  | .ret (some a) =>
      if a == 1 then [String.intercalate " " [ip, "is vulnerable to monlist"]] else []
  | .exc m =>
      if vbose ≠ none then [String.intercalate " " ["Error in ntp_monlist", m]] else []

/-!
HTTP fingerprint prober: the matcher of getheaders (lift.py lines 375 to
501). The parsed response is an observation record; the two leading
standalone if statements (RouterOS and D-LINK, separated from the ladder
by the tab indentation of the source) run first, then the single if/elif
ladder runs with first match wins, then the final else consults info.
Every print is embedded as the full output line with the dest_ip prefix
written as pyRstrip ip, matching str(dest_ip).rstrip of the source.
-/

/-- Parsed observation of one HTTP response inside getheaders: the title
contents list a (None when no title was found), the Server header (None
when absent), whether the body html contains UI_ADMIN_USERNAME, the
contents of the first body h1 (None when body or h1 is missing), the
contents of the modelname div (None when missing), and whether the
js_check meta refresh tag was found. -/
structure HttpObs where
  a : Option (List String)
  server : Option String
  htmlHasUIAdmin : Bool
  bodyH1 : Option (List String)
  dlinkModel : Option (List String)
  metaJsCheck : Bool

/-- One rule of the getheaders if/elif ladder: a condition and the line
it prints, either of which can raise. -/
structure HttpRule where
  cond : HttpObs → Except String Bool
  emit : HttpObs → Except String String

/-- Run a rule list in order: the first rule whose condition is true
emits its line and no further rule is tried; a raised condition or emit
aborts the whole run. -/
def firstRule : List HttpRule → HttpObs → Except String (Option String)
  | [], _ => .ok none
  | r :: rs, o =>
    match r.cond o with
    | .error m => .error m
    | .ok true =>
      match r.emit o with
      | .error m => .error m
      | .ok l => .ok (some l)
    | .ok false => firstRule rs o

/-- Every condition in the list evaluates without raising to false. -/
def condsAllFalse (rs : List HttpRule) (o : HttpObs) : Bool :=
  rs.all fun r =>
    match r.cond o with
    | .ok false => true
    | _ => false

/-- The standalone RouterOS if statement (lines 400 to 403): title
contains RouterOS and the Server header is absent; the print dereferences
the body h1, raising when it is missing. -/
def stage1RouterOS (ip : String) (o : HttpObs) : Except String (List String) :=
  if pyIn "RouterOS" (pyStrTitle o.a) && o.server == none then
    match pyPopL o.bodyH1 with
    | .error m => .error m
    | .ok v =>
        .ok [String.intercalate " "
          [pyRstrip ip ++ ": MikroTik RouterOS version", v, "(Login Page Title)"]]
  else .ok []

/-- The standalone D-LINK if statement (lines 404 to 407): title contains
D-LINK and the Server header contains siyou server, the membership test
raising when the header is absent; the print dereferences the modelname
div, raising when it is missing. -/
def stage2DLink (ip : String) (o : HttpObs) : Except String (List String) :=
  if pyIn "D-LINK" (pyStrTitle o.a) then
    match pyInServer "siyou server" o.server with
    | .error m => .error m
    | .ok true =>
      match pyPopL o.dlinkModel with
      | .error m => .error m
      | .ok dm => .ok [String.intercalate " " [pyRstrip ip ++ ": D-LINK Router", dm]]
    | .ok false => .ok []
  else .ok []

/-- The if/elif ladder of getheaders (lines 408 to 492), in source
order. Conditions written str(server) or str(a) in the source are total;
conditions written directly on server or a raise on None. -/
def httpLadder (ip : String) : List HttpRule := [
  { cond := fun o => .ok (o.a == none),
    emit := fun o =>
      if o.metaJsCheck then .ok (pyRstrip ip ++ ": Possible  KitDuo DVR Found")
      else .ok (String.intercalate " "
        [pyRstrip ip ++ ": has server ", pyStrOpt o.server, " and no viewable title"]) },
  { cond := fun o => .ok (pyIn "axhttpd/1.4.0" (pyStrOpt o.server)),
    emit := fun _ => .ok (pyRstrip ip ++ ": IntelBras WOM500 (Probably admin/admin) (Server string)") },
  { cond := fun o => .ok (pyIn "ePMP" (pyStrTitle o.a)),
    emit := fun _ => .ok (pyRstrip ip ++ ": Cambium ePMP 1000 Device (Server type + title)") },
  { cond := fun o => .ok (pyIn "Wimax CPE Configuration" (pyStrTitle o.a)),
    emit := fun _ => .ok (pyRstrip ip ++ ": Wimax Device (PointRed, Mediatek etc) (Server type + title)") },
  { cond := fun o => .ok (pyIn "NXC2500" (pyStrTitle o.a) && o.server == none),
    emit := fun _ => .ok (pyRstrip ip ++ ": Zyxel NXC2500 (Page Title)") },
  { cond := fun o => pyInServer "MiniServ/1.580" o.server,
    emit := fun _ => .ok (pyRstrip ip ++ ": Multichannel Power Supply System SY4527 (Server Version)") },
  { cond := fun o => .ok (pyIn "IIS" (pyStrTitle o.a)),
    emit := fun o =>
      match pyPopL o.a with
      | .error m => .error m
      | .ok t => .ok (String.intercalate " " [pyRstrip ip ++ ":", t, "Server (Page Title)"]) },
  { cond := fun o => .ok (pyIn "Vigor" (pyStrTitle o.a)),
    emit := fun o =>
      match pyPopL o.a with
      | .error m => .error m
      | .ok t => .ok (String.intercalate " " [pyRstrip ip ++ ":", t, "Switch (Title)"]) },
  { cond := fun o => .ok (pyIn "Aethra" (pyStrTitle o.a)),
    emit := fun _ => .ok (pyRstrip ip ++ ": Aethra Telecommunications Device (Title)") },
  { cond := fun o => .ok (pyIn "Industrial Ethernet Switch" (pyStrTitle o.a)),
    emit := fun _ => .ok (pyRstrip ip ++ ": Industrial Ethernet Switch (Title)") },
  { cond := fun o =>
      match o.a with
      | none => .error (noneAttrMsg "count")
      | some l => .ok (pyCountOne l == 0 && o.htmlHasUIAdmin),
    emit := fun _ => .ok (pyRstrip ip ++ ": Greenpacket device Wimax Device (Empty title w/ Content)") },
  { cond := fun o => pyInList "NUUO Network Video Recorder Login" o.a,
    emit := fun _ => .ok (pyRstrip ip ++ ": NUOO Video Recorder (admin/admin) (Title)") },
  { cond := fun o => pyInList "CDE-30364" o.a,
    emit := fun _ => .ok (pyRstrip ip ++ ": Hitron Technologies CDE (Title)") },
  { cond := fun o => pyInList "BUFFALO" o.a,
    emit := fun _ => .ok (pyRstrip ip ++ ": Buffalo Networking Device (Title)") },
  { cond := fun o => pyInList "Netgear" o.a,
    emit := fun _ => .ok (pyRstrip ip ++ ": Netgear Generic Networking Device (Title)") },
  { cond := fun o => pyInServer "IIS" o.server,
    emit := fun o => .ok (String.intercalate " "
      [pyRstrip ip ++ ":", pyStrOpt o.server, "Server (Server Version)"]) },
  { cond := fun o => .ok (pyIn (pyOrS "CentOS" (pyOrS "Ubuntu" "Debian")) (pyStrOpt o.server)),
    emit := fun o => .ok (String.intercalate " "
      [pyRstrip ip ++ ":", pyStrOpt o.server, "Linux server (Server name)"]) },
  { cond := fun o => .ok (pyIn "SonicWALL" (pyStrOpt o.server)),
    emit := fun _ => .ok (pyRstrip ip ++ ": SonicWALL Device (Server name)") },
  { cond := fun o => pyInList "iGate" o.a,
    emit := fun _ => .ok (pyRstrip ip ++ ": iGate Router or Modem (Server name)") },
  { cond := fun o => .ok (pyIn "LG ACSmart Premium" (pyStrTitle o.a)),
    emit := fun _ => .ok (pyRstrip ip ++ ": LG ACSmart Premium (admin/admin) (Server name)") },
  { cond := fun o => .ok (pyIn "IFQ360" (pyStrTitle o.a)),
    emit := fun _ => .ok (pyRstrip ip ++ ": Sencore IFQ360 Edge QAM (Title)") },
  { cond := fun o => .ok (pyIn "Tank Sentinel AnyWare" (pyStrTitle o.a)),
    emit := fun _ => .ok (pyRstrip ip ++ ": Franklin Fueling Systems Tank Sentinel System (Title)") },
  { cond := fun o => .ok (pyIn "Z-World Rabbit" (pyStrOpt o.server)),
    emit := fun _ => .ok (pyRstrip ip ++ ": iBootBar (Server)") },
  { cond := fun o => .ok (pyIn "Intellian Aptus Web" (pyStrTitle o.a)),
    emit := fun _ => .ok (pyRstrip ip ++ ": Intellian Device (Title)") },
  { cond := fun o => .ok (pyIn "SECURUS" (pyStrTitle o.a)),
    emit := fun _ => .ok (pyRstrip ip ++ ": Securus DVR (Title)") },
  { cond := fun o => .ok (pyIn "uc-httpd" (pyStrOpt o.server)),
    emit := fun o =>
      match pyPopL o.a with
      | .error m => .error m
      | .ok t => .ok (String.intercalate " "
          [pyRstrip ip ++ ": XiongMai Technologies-based DVR/NVR/IP Camera w/ title", t, "(Server)"]) },
  { cond := fun o =>
      if pyIn "::: Login :::" (pyStrTitle o.a) then
        pyInServer "Linux/2.x UPnP/1.0 Avtech/1.0" o.server
      else .ok false,
    emit := fun _ => .ok (pyRstrip ip ++ ": AvTech IP Camera (admin/admin) (Title and Server)") },
  { cond := fun o => .ok (pyIn "NetDvrV3" (pyStrTitle o.a)),
    emit := fun _ => .ok (pyRstrip ip ++ ": NetDvrV3-based DVR (Title)") },
  { cond := fun o => .ok (pyIn "Open Webif" (pyStrTitle o.a)),
    emit := fun _ => .ok (pyRstrip ip ++ ": Open Web Interface DVR system (OpenWebIF) (root/nopassword) (Title)") },
  { cond := fun o => .ok (pyIn "IVSWeb" (pyStrTitle o.a)),
    emit := fun _ => .ok (pyRstrip ip ++ ": IVSWeb-based DVR (Possibly zenotinel ltd) (Title)") },
  { cond := fun o =>
      match pyInServer "DVRDVS-Webs" o.server with
      | .error m => .error m
      | .ok true => .ok true
      | .ok false =>
        match pyInServer "Hikvision-Webs" o.server with
        | .error m => .error m
        | .ok true => .ok true
        | .ok false => pyInServer "App-webs/" o.server,
    emit := fun _ => .ok (pyRstrip ip ++ ": Hikvision-Based DVR (Server)") },
  { cond := fun o => .ok (pyIn "Router Webserver" (pyStrOpt o.server)),
    emit := fun o =>
      match pyPopL o.a with
      | .error m => .error m
      | .ok t => .ok (String.intercalate " " [pyRstrip ip ++ ": TP-LINK", t, "(Title)"]) },
  { cond := fun o => .ok (pyIn "DD-WRT" (pyStrTitle o.a)),
    emit := fun o =>
      match pyPopL o.a with
      | .error m => .error m
      | .ok t => .ok (String.intercalate " " [pyRstrip ip ++ ":", t, "Router (Title)"]) },
  { cond := fun o => .ok (pyIn "Samsung DVR" (pyStrTitle o.a)),
    emit := fun _ => .ok (pyRstrip ip ++ ": Samsung DVR Unknown type (Title)") },
  { cond := fun o => .ok (pyIn "HtmlAnvView" (pyStrTitle o.a)),
    emit := fun _ => .ok (pyRstrip ip ++ ": Possible Shenzhen Baoxinsheng Electric DVR (Title)") },
  { cond := fun o => .ok (pyIn "ZTE corp" (pyStrOpt o.server)),
    emit := fun o =>
      match pyPopL o.a with
      | .error m => .error m
      | .ok t => .ok (String.intercalate " "
          [pyRstrip ip ++ ": ZTE", t, "Router (Title and Server)"]) },
  { cond := fun o => .ok (pyIn "Haier Q7" (pyStrTitle o.a)),
    emit := fun _ => .ok (pyRstrip ip ++ ": Haier Router Q7 Series (Title)") },
  { cond := fun o => .ok (pyIn "Cross Web Server" (pyStrOpt o.server)),
    emit := fun _ => .ok (pyRstrip ip ++ ": TVT-based DVR/NVR/IP Camera (Server)") },
  { cond := fun o => .ok (pyIn "uhttpd/1.0.0" (pyStrOpt o.server) && pyIn "NETGEAR" (pyStrTitle o.a)),
    emit := fun o =>
      match pyPopL o.a with
      | .error m => .error m
      | .ok t => .ok (String.intercalate " " [pyRstrip ip ++ ": ", t, "(Title and server)"]) },
  { cond := fun o => .ok (pyIn "SunGuard" (pyStrTitle o.a)),
    emit := fun _ => .ok (pyRstrip ip ++ ": SunGuard.it Device (Title)") }]

/-- The final else of the matcher (lines 493 to 501): in info mode the
one-line summary is built by string concatenation, whose pop of a and
concatenation with a None server raise into the inner except that prints
the does-not-exist fallback; with info off nothing is printed. -/
def elseInfo (ip : String) (o : HttpObs) (info : Bool) : List String :=
  if info then
    match pyPopL o.a, o.server with
    | .ok t, some s =>
        ["Title on IP " ++ pyRstrip ip ++ " is " ++ pyRstrip t ++ " and server is " ++ s]
    | _, _ =>
        [String.intercalate " "
          ["Title on IP", pyRstrip ip, "does not exists and server is", pyStrOpt o.server]]
  else []

/-- The whole matcher run of getheaders on one parsed response: the lines
printed in order and, when a statement raised, the message of the
exception that escapes to the outer except handler (lines already printed
are kept). -/
def getheadersRun (ip : String) (o : HttpObs) (info : Bool) :
    List String × Option String :=
  match stage1RouterOS ip o with
  | .error m => ([], some m)
  | .ok l1 =>
    match stage2DLink ip o with
    | .error m => (l1, some m)
    | .ok l2 =>
      match firstRule (httpLadder ip) o with
      | .error m => (l1 ++ l2, some m)
      | .ok (some l) => (l1 ++ l2 ++ [l], none)
      | .ok none => (l1 ++ l2 ++ elseInfo ip o info, none)

/-!
Generic facts about running a rule ladder.
-/

/-- Skipping a prefix of rules whose conditions all evaluate to false. -/
theorem firstRule_of_all_false (xs ys : List HttpRule) (o : HttpObs)
    (h : condsAllFalse xs o = true) : firstRule (xs ++ ys) o = firstRule ys o := by
  induction xs with
  | nil => rfl
  | cons r rs ih =>
    simp only [condsAllFalse, List.all_cons, Bool.and_eq_true] at h
    obtain ⟨h1, h2⟩ := h
    have hc : r.cond o = .ok false := by
      revert h1
      cases hco : r.cond o with
      | error m => simp
      | ok b => cases b <;> simp
    simp only [List.cons_append, firstRule, hc]
    exact ih h2

/-- The first rule whose condition holds, all earlier conditions being
false, determines the whole result of the ladder. -/
theorem firstRule_first_true (L : List HttpRule) (o : HttpObs) :
    ∀ (i : Nat) (hi : i < L.length),
      condsAllFalse (L.take i) o = true →
      (L.get ⟨i, hi⟩).cond o = .ok true →
      firstRule L o = ((L.get ⟨i, hi⟩).emit o).map some := by
  induction L with
  | nil => intro i hi _ _; simp at hi
  | cons r rs ih =>
    intro i hi hpre hcond
    cases i with
    | zero =>
      simp only [List.get] at hcond ⊢
      simp only [firstRule, hcond]
      cases he : r.emit o <;> simp [Except.map, he]
    | succ n =>
      simp only [List.take_succ_cons, condsAllFalse, List.all_cons, Bool.and_eq_true] at hpre
      obtain ⟨h1, h2⟩ := hpre
      have hc : r.cond o = .ok false := by
        revert h1
        cases hco : r.cond o with
        | error m => simp
        | ok b => cases b <;> simp
      simp only [firstRule, hc]
      simp only [List.get] at hcond
      exact ih n (Nat.lt_of_succ_lt_succ hi) h2 hcond

/-!
Claim theorems.
-/

/-- C1, counterexample: a response whose title contains both D-LINK and
IIS and whose server is siyou server is matched by the standalone D-LINK
rule and by the later IIS title rule of the ladder, and the matcher emits
both labels, so the emitted label is not only that of the first matching
rule. -/
theorem http_two_labels_emitted_cex :
    getheadersRun "1.2.3.4"
      ⟨some ["D-LINK IIS"], some "siyou server", false, none, some ["DIR-300"], false⟩ false =
      (["1.2.3.4: D-LINK Router DIR-300", "1.2.3.4: D-LINK IIS Server (Page Title)"], none) := by
  decide

/-- C1, amended: within the single if/elif ladder of getheaders, rules
are evaluated in their fixed top-to-bottom order and the label of the
first rule whose condition holds is the one emitted, no later ladder rule
being consulted; the two standalone leading if statements (RouterOS and
D-LINK) are separate from the ladder and can emit an additional label
before it. -/
theorem http_ladder_first_match_wins (ip : String) (o : HttpObs) (i : Nat)
    (hi : i < (httpLadder ip).length)
    (hpre : condsAllFalse ((httpLadder ip).take i) o = true)
    (hcond : ((httpLadder ip).get ⟨i, hi⟩).cond o = .ok true) :
    firstRule (httpLadder ip) o = (((httpLadder ip).get ⟨i, hi⟩).emit o).map some :=
  firstRule_first_true (httpLadder ip) o i hi hpre hcond

/-- C1, witness: the first ladder rule (absent title) matches a concrete
observation and the ladder emits exactly its line. -/
theorem http_ladder_first_match_wins_witness :
    firstRule (httpLadder "1.2.3.4") ⟨none, some "foo", false, none, none, false⟩ =
      .ok (some "1.2.3.4: has server  foo  and no viewable title") :=
  (http_ladder_first_match_wins "1.2.3.4" ⟨none, some "foo", false, none, none, false⟩ 0
    (by decide) rfl rfl).trans rfl

/-- C2: every pair of the exact-match table is returned by lookupByCert
exactly, with unknown keys returning none, and the testips ladder reports
precisely the display name of the table for every key (each printed line
being the rstripped address followed by the recorded label text). -/
theorem cert_store_lookup_and_report :
    (∀ p ∈ exact_names, lookupByCert p.1 = some p.2 ∧ testipsLabel (some p.1) = [": " ++ p.2])
    ∧ (∀ c, (∀ p ∈ exact_names, p.1 ≠ c) → lookupByCert c = none) := by
  constructor
  · decide
  · intro c h
    unfold lookupByCert
    rw [List.find?_eq_none.mpr]
    · rfl
    · intro p hp
      simpa using h p hp

/-- C2, witness: the hikvision signature resolves to its display name and
an unknown key resolves to none. -/
theorem cert_store_lookup_and_report_witness :
    lookupByCert "hikvision" = some "Hikvision Default Cert"
    ∧ lookupByCert "tp_link_1" = none :=
  ⟨(cert_store_lookup_and_report.1 ("hikvision", "Hikvision Default Cert") (by decide)).1,
    cert_store_lookup_and_report.2 "tp_link_1" (by decide)⟩

/-- C3, counterexample: with the Server header DVRDVS-Webs/3.0 but a page
title containing IIS, the earlier IIS title rule fires and the emitted
label is the IIS one, not Hikvision-Based DVR, so the DVRDVS-Webs server
rule does not win regardless of title. -/
theorem dvrdvs_title_preempts_cex :
    getheadersRun "1.2.3.4"
      ⟨some ["IIS login"], some "DVRDVS-Webs/3.0", false, none, none, false⟩ false =
      (["1.2.3.4: IIS login Server (Page Title)"], none)
    ∧ "1.2.3.4: Hikvision-Based DVR (Server)" ∉
        (getheadersRun "1.2.3.4"
          ⟨some ["IIS login"], some "DVRDVS-Webs/3.0", false, none, none, false⟩ false).1 := by
  constructor
  · decide
  · decide

/-- C3, amended: a response whose Server header contains DVRDVS-Webs
resolves to the Hikvision-Based DVR label whenever no earlier heuristic
matches: the title does not contain D-LINK and every ladder rule before
the Hikvision rule has a false condition. -/
theorem dvrdvs_server_rule_matches (ip : String) (o : HttpObs) (s : String)
    (hs : o.server = some s)
    (hin : pyIn "DVRDVS-Webs" s = true)
    (hdl : pyIn "D-LINK" (pyStrTitle o.a) = false)
    (hpre : condsAllFalse ((httpLadder ip).take 30) o = true)
    (info : Bool) :
    getheadersRun ip o info = ([pyRstrip ip ++ ": Hikvision-Based DVR (Server)"], none) := by
  have h30 : 30 < (httpLadder ip).length := by simp [httpLadder]
  have hc0 : ((httpLadder ip).get ⟨30, h30⟩).cond o =
      (match pyInServer "DVRDVS-Webs" o.server with
        | .error m => .error m
        | .ok true => .ok true
        | .ok false =>
          match pyInServer "Hikvision-Webs" o.server with
          | .error m => .error m
          | .ok true => .ok true
          | .ok false => pyInServer "App-webs/" o.server) := rfl
  have hc : ((httpLadder ip).get ⟨30, h30⟩).cond o = .ok true := by
    rw [hc0, hs]
    simp [pyInServer, hin]
  have hemit : ((httpLadder ip).get ⟨30, h30⟩).emit o =
      .ok (pyRstrip ip ++ ": Hikvision-Based DVR (Server)") := rfl
  have hlad := firstRule_first_true (httpLadder ip) o 30 h30 hpre hc
  rw [hemit] at hlad
  have h1 : stage1RouterOS ip o = .ok [] := by
    unfold stage1RouterOS
    rw [hs]
    have hb : ((some s : Option String) == none) = false := rfl
    rw [hb, Bool.and_false]
    simp
  have h2 : stage2DLink ip o = .ok [] := by
    unfold stage2DLink
    rw [hdl]
    simp
  unfold getheadersRun
  rw [h1, h2, hlad]
  simp [Except.map]

/-- C3, witness: a neutral title together with the DVRDVS-Webs/3.0 server
produces exactly the Hikvision-Based DVR line. -/
theorem dvrdvs_server_rule_matches_witness :
    getheadersRun "1.2.3.4"
      ⟨some ["Welcome"], some "DVRDVS-Webs/3.0", false, none, none, false⟩ false =
      (["1.2.3.4: Hikvision-Based DVR (Server)"], none) :=
  dvrdvs_server_rule_matches "1.2.3.4"
    ⟨some ["Welcome"], some "DVRDVS-Webs/3.0", false, none, none, false⟩
    "DVRDVS-Webs/3.0" rfl (by decide) (by decide) (by decide) false

/-- C4, counterexample: with the title RouterOS login and a Server header
that is present but empty, the RouterOS rule requires the header to be
absent (server is None) and does not fire, and no rule of the matcher
emits any label. -/
theorem routeros_empty_server_cex :
    getheadersRun "1.2.3.4"
      ⟨some ["RouterOS login"], some "", false, some ["6.40.5"], none, false⟩ false =
      ([], none) := by
  decide

/-- C4, amended: a response whose title is RouterOS login resolves to the
MikroTik RouterOS version label when the Server header is absent (None,
not the empty string) and the body carries the h1 version element; the
ladder afterwards aborts with a TypeError at the MiniServ rule because
the absent header is used with the in operator, which the outer except
handler of getheaders receives. -/
theorem routeros_absent_server_resolves (ip v : String) :
    getheadersRun ip ⟨some ["RouterOS login"], none, false, some [v], none, false⟩ false =
      ([String.intercalate " "
          [pyRstrip ip ++ ": MikroTik RouterOS version", v, "(Login Page Title)"]],
        some noneIterMsg) := rfl

/-- C5, counterexample: a connection-refused TLS failure on port 8443
with SSL-only off invokes the HTTP probe on port 8443, not on port 80:
only port 443 is rewritten to 80 by getheaders. -/
theorem tls_fallback_port_cex :
    httpPortAfterTlsFailure [.int 111, .str "Connection refused"] 0 8443 = some 8443
    ∧ (8443 : Nat) ≠ 80 := by
  constructor
  · rfl
  · decide

/-- C5, amended: when the TLS attempt fails with a connection-refused
error (errno 111 in the exception args) and SSL-only mode is off, the
HTTP probe is subsequently invoked with the same port, which the
getheaders port rewrite maps to 80 exactly when the TLS port was the
default 443. -/
theorem tls_refused_http_fallback (args : List PyArg) (dport : Nat)
    (h : pyInExc (.int 111) args = true) :
    httpPortAfterTlsFailure args 0 dport = some (getheadersPort dport)
    ∧ httpPortAfterTlsFailure args 0 443 = some 80 := by
  constructor <;>
    simp [httpPortAfterTlsFailure, testipsFallbackCall, h, getheadersPort]

/-- C5, witness: a concrete connection-refused failure on the default
port 443 falls back to HTTP on port 80. -/
theorem tls_refused_http_fallback_witness :
    httpPortAfterTlsFailure [.int 111, .str "Connection refused"] 0 443 = some 80 :=
  (tls_refused_http_fallback [.int 111, .str "Connection refused"] 443 (by decide)).2

/-- C6: a target dispatched with port 1900, recurse true and recon false
invokes exactly the SSDP reflection probe, both on the single-IP path and
on the subnet path of main: no fingerprint probe and no DNS or NTP
reflection probe is selected. -/
theorem dispatch_1900_ssdp_only :
    dispatchProbes 1900 true false = [.ssdpReflection]
    ∧ dispatchProbesSubnet 1900 true = [.ssdpReflection] := by
  constructor <;> rfl

/-- C7, counterexample: a query that fails only after 100 seconds still
yields the NotVulnerable verdict, with a single query sent, at total
elapsed time 100, far beyond the 3-second constant: the while condition
is tested only before the query and never bounds the wait. -/
theorem dns_wait_unbounded_cex :
    recurse_DNS_check "8.8.8.8" false ⟨0, 100, .failed⟩ =
      (["8.8.8.8 is not vulnerable to DNS AMP"], 1, 100)
    ∧ ¬((100 : Nat) ≤ 3) := by
  constructor
  · decide
  · decide

/-- C7, amended: the DNS reflection check sends at most one query and
never retries; when the single while test passes (the clock sample is
within the 3-second window, which holds immediately after start), an
answer yields the Vulnerable verdict and a failure yields the
NotVulnerable verdict, each delivered only when the query itself
terminates, after elapsed time equal to the query duration, unbounded by
the 3-second constant. -/
theorem dns_one_query_verdicts (ip : String) (vb : Bool) (t d : Nat) (h : t < 3) :
    (∀ env : DnsEnv, (recurse_DNS_check ip vb env).2.1 ≤ 1)
    ∧ recurse_DNS_check ip vb ⟨t, d, .answered true⟩ =
        ((if vb then [String.intercalate " " ["Trying: ", ip]] else [])
          ++ [String.intercalate " " [ip, "is vulnerable to DNS AMP"]], 1, t + d)
    ∧ recurse_DNS_check ip vb ⟨t, d, .failed⟩ =
        ((if vb then [String.intercalate " " ["Trying: ", ip]] else [])
          ++ [String.intercalate " " [ip, "is not vulnerable to DNS AMP"]], 1, t + d) := by
  refine ⟨?_, ?_, ?_⟩
  · intro env
    unfold recurse_DNS_check
    rcases env with ⟨et, qd, oc⟩
    by_cases het : et < 3
    · cases oc with
      | answered ne => cases ne <;> simp [het]
      | failed => simp [het]
    · simp [het]
  · simp [recurse_DNS_check, h]
  · simp [recurse_DNS_check, h]

/-- C7, witness: with the while test passing at elapsed time 0, an
answered query of duration 2 yields the Vulnerable verdict. -/
theorem dns_one_query_verdicts_witness :
    recurse_DNS_check "8.8.8.8" false ⟨0, 2, .answered true⟩ =
      (["8.8.8.8 is vulnerable to DNS AMP"], 1, 2) :=
  ((dns_one_query_verdicts "8.8.8.8" false 0 2 (by decide)).2.1).trans rfl

/-- C8, counterexample: a local error in the monlist exchange is caught
but produces no verdict line at all in non-verbose mode, whereas a None
result does produce the NotVulnerable line, so errors are not reported
like NotVulnerable. -/
theorem ntp_error_silent_cex :
    ntp_monlist_check "1.2.3.4" (.exc "socket error") none = []
    ∧ ntp_monlist_check "1.2.3.4" (.ret none) none =
        ["1.2.3.4 is not vulnerable to NTP monlist"] := by
  constructor
  · rfl
  · decide

/-- C8, amended: the NTP monlist check reports the Vulnerable verdict
exactly for the return value 1, reports the NotVulnerable verdict only
for a None return, and on a caught local error (never propagated) prints
no verdict line, only a verbose-mode diagnostic; any other return value
also prints nothing. -/
theorem ntp_verdict_rules (ip : String) (vb : Option String) :
    ntp_monlist_check ip (.ret (some 1)) vb =
        [String.intercalate " " [ip, "is vulnerable to monlist"]]
    ∧ ntp_monlist_check ip (.ret none) vb =
        [String.intercalate " " [ip, "is not vulnerable to NTP monlist"]]
    ∧ (∀ k : Int, k ≠ 1 → ntp_monlist_check ip (.ret (some k)) vb = [])
    ∧ (∀ m : String, ntp_monlist_check ip (.exc m) none = []) := by
  refine ⟨rfl, rfl, ?_, ?_⟩
  · intro k hk
    simp [ntp_monlist_check, hk]
  · intro m
    rfl

/-- C8, witness: a non-1 return value and a caught error both print
nothing. -/
theorem ntp_verdict_rules_witness :
    ntp_monlist_check "1.2.3.4" (.ret (some 5)) none = []
    ∧ ntp_monlist_check "1.2.3.4" (.exc "socket timeout") none = [] :=
  ⟨(ntp_verdict_rules "1.2.3.4" none).2.2.1 5 (by decide),
    (ntp_verdict_rules "1.2.3.4" none).2.2.2 "socket timeout"⟩

/-- C9: the second fallback guard of the testips exception handler is the
constant-true expression "timed out" or (sslv3 in e), so with SSL-only
mode off every exception value leads to the getheaders fallback with the
unchanged port. -/
theorem tls_fallback_guard_always_true (args : List PyArg) (dport : Nat) :
    testipsGuard2 args = true ∧ testipsFallbackCall args 0 dport = some dport := by
  constructor
  · rfl
  · unfold testipsFallbackCall
    cases h : pyInExc (.int 111) args <;> simp [h, testipsGuard2, pyTruthyS]

/-- C10: the SSDP reflection check prints exactly one of the two verdict
lines for every exchange result, the reflector line exactly when a
response payload was received, and the third verbose branch of its chain
is unreachable for every input. -/
theorem ssdp_two_verdicts_only (ip : String) (a vb : Option String) :
    ssdpBranch a vb ≠ .verboseDetail
    ∧ (recurse_ssdp_check ip a vb = [String.intercalate " " [ip, "is not an SSDP reflector"]]
        ∨ recurse_ssdp_check ip a vb = [String.intercalate " " [ip, "is an SSDP reflector"]])
    ∧ (ssdpBranch a vb = .reflector ↔ a ≠ none) := by
  cases a <;> simp [ssdpBranch, recurse_ssdp_check]
